import Mathlib

/-!
Verification development for the Chrono-Pulse sleep-disorder prediction
backend (`backend/main.py`).

The Python source is shallowly embedded: the per-request input record is a
structure, the pandas one-row DataFrame built by `predict` is an association
list `List (String × ℚ)` in insertion order, floats are modelled by rationals,
and the externally loaded artifacts (classifier, scaler, feature schema,
metadata) are structures of opaque function fields, since their pickled
contents are outside the repository.
-/

namespace ChronoPulse

/-- The request body `PredictionInput` (pydantic model, `main.py` lines 41-53).
`int` fields become `Int`, `float` becomes `ℚ`, `str` becomes `String`. -/
structure PredictionInput where
  age : Int
  gender : String
  occupation : String
  sleep_duration : ℚ
  quality_of_sleep : Int
  physical_activity_level : Int
  stress_level : Int
  bmi_category : String
  heart_rate : Int
  daily_steps : Int
  systolic_bp : Int
  diastolic_bp : Int
  deriving DecidableEq, Repr

/-- The hardcoded occupation category list (`main.py` lines 116-118). -/
def occupations : List String :=
  ["Accountant", "Doctor", "Engineer", "Lawyer", "Manager",
   "Nurse", "Sales Representative", "Salesperson", "Scientist",
   "Software Engineer", "Teacher"]

/-- The hardcoded BMI category list (`main.py` line 123). -/
def bmi_categories : List String :=
  ["Normal", "Normal Weight", "Obese", "Overweight"]

/-- Column access on a one-row DataFrame modelled as an association list:
returns the value of the first column whose name equals `f`, as
`input_df[feature]` / `feature in input_df.columns` do. -/
def colLookup (df : List (String × ℚ)) (f : String) : Option ℚ :=
  match df with
  | [] => none
  | (g, v) :: rest => if g = f then some v else colLookup rest f

/-- The directly measured numeric entries of the `data` dict
(`main.py` lines 100-110), in insertion order. -/
def numericData (input : PredictionInput) : List (String × ℚ) :=
  [("Age", (input.age : ℚ)),
   ("Sleep Duration", input.sleep_duration),
   ("Quality of Sleep", (input.quality_of_sleep : ℚ)),
   ("Physical Activity Level", (input.physical_activity_level : ℚ)),
   ("Stress Level", (input.stress_level : ℚ)),
   ("Heart Rate", (input.heart_rate : ℚ)),
   ("Daily Steps", (input.daily_steps : ℚ)),
   ("Systolic_BP", (input.systolic_bp : ℚ)),
   ("Diastolic_BP", (input.diastolic_bp : ℚ))]

/-- Gender encoding: `data['Gender_Male'] = 1 if input_data.gender == 'Male'
else 0` (`main.py` line 113). -/
def genderData (input : PredictionInput) : List (String × ℚ) :=
  [("Gender_Male", if input.gender = "Male" then 1 else 0)]

/-- Occupation one-hot encoding over `occupations[1:]` (`main.py`
lines 119-120): indicator columns `Occupation_<occ>` for every non-baseline
category. -/
def occupationData (input : PredictionInput) : List (String × ℚ) :=
  occupations.tail.map fun occ =>
    ("Occupation_" ++ occ, if input.occupation = occ then (1 : ℚ) else 0)

/-- BMI one-hot encoding over `bmi_categories[1:]` (`main.py`
lines 124-125). -/
def bmiData (input : PredictionInput) : List (String × ℚ) :=
  bmi_categories.tail.map fun bmi =>
    ("BMI Category_" ++ bmi, if input.bmi_category = bmi then (1 : ℚ) else 0)

/-- The complete `data` dict passed to `pd.DataFrame([data])` (`main.py`
lines 100-128), keys in insertion order. -/
def buildData (input : PredictionInput) : List (String × ℚ) :=
  numericData input ++ genderData input ++ occupationData input ++ bmiData input

/-- One step of the zero-fill loop (`main.py` lines 131-133): if `feature`
is not among the columns, append it with value 0. -/
def ensureFeature (df : List (String × ℚ)) (feature : String) :
    List (String × ℚ) :=
  if (colLookup df feature).isSome then df else df ++ [(feature, 0)]

/-- The loop `for feature in feature_names: if feature not in input_df.columns:
input_df[feature] = 0` (`main.py` lines 131-133). -/
def ensureFeatures (df : List (String × ℚ)) (feature_names : List String) :
    List (String × ℚ) :=
  feature_names.foldl ensureFeature df

/-- Column selection/reordering `input_df = input_df[feature_names]`
(`main.py` line 136); pandas raises on a missing column, hence `Option`. -/
def selectColumns (df : List (String × ℚ)) (feature_names : List String) :
    Option (List ℚ) :=
  feature_names.mapM (colLookup df)

/-- The full encoding pipeline of `predict` (`main.py` lines 100-136):
build the data dict, zero-fill missing schema columns, then select in
schema order. -/
def encode (input : PredictionInput) (feature_names : List String) :
    Option (List ℚ) :=
  selectColumns (ensureFeatures (buildData input) feature_names) feature_names

/-- The closed form the encoding provably equals: each schema name mapped to
its value in the data dict, defaulting to 0. -/
def encodeVec (input : PredictionInput) (feature_names : List String) :
    List ℚ :=
  feature_names.map fun f => (colLookup (buildData input) f).getD 0

/-- Recommendation message for short sleep (`main.py` line 172). -/
def msgSleep : String :=
  "⏰ Aim for 7-9 hours of sleep per night for optimal health"

/-- Recommendation message for poor sleep quality (`main.py` line 175). -/
def msgQuality : String :=
  "🛏️ Focus on improving sleep quality - maintain a consistent sleep schedule"

/-- Recommendation message for high stress (`main.py` line 178). -/
def msgStress : String :=
  "🧘 Practice stress management techniques like meditation, yoga, or deep breathing"

/-- Recommendation message for low physical activity (`main.py` line 181). -/
def msgActivity : String :=
  "🏃 Increase physical activity to at least 30 minutes of moderate exercise daily"

/-- Recommendation message for low daily steps (`main.py` line 184). -/
def msgSteps : String :=
  "👟 Try to achieve at least 7,000-10,000 steps per day"

/-- Recommendation message for elevated heart rate (`main.py` line 187). -/
def msgHeart : String :=
  "💓 Monitor your heart rate - consult a doctor if it remains consistently elevated"

/-- Recommendation message for elevated blood pressure (`main.py` line 190). -/
def msgBP : String :=
  "🩺 Your blood pressure is elevated - please consult a healthcare provider"

/-- Default positive-reinforcement message (`main.py` line 193). -/
def msgDefault : String :=
  "✨ Your health metrics look good! Keep up the healthy habits"

/-- The function `generate_recommendations` (`main.py` lines 167-195): seven threshold
rules appended in fixed order, with a single default message when none
fires. -/
def generate_recommendations (data : PredictionInput) : List String :=
  let recommendations : List String := []
  let recommendations :=
    if data.sleep_duration < 7 then recommendations ++ [msgSleep]
    else recommendations
  let recommendations :=
    if data.quality_of_sleep < 6 then recommendations ++ [msgQuality]
    else recommendations
  let recommendations :=
    if data.stress_level > 6 then recommendations ++ [msgStress]
    else recommendations
  let recommendations :=
    if data.physical_activity_level < 30 then recommendations ++ [msgActivity]
    else recommendations
  let recommendations :=
    if data.daily_steps < 5000 then recommendations ++ [msgSteps]
    else recommendations
  let recommendations :=
    if data.heart_rate > 90 then recommendations ++ [msgHeart]
    else recommendations
  let recommendations :=
    if data.systolic_bp > 130 ∨ data.diastolic_bp > 85 then
      recommendations ++ [msgBP]
    else recommendations
  let recommendations :=
    if recommendations = [] then recommendations ++ [msgDefault]
    else recommendations
  recommendations

/-- The proposition that at least one of the seven threshold rules of
`generate_recommendations` fires on `data`. -/
def someThresholdFires (data : PredictionInput) : Prop :=
  data.sleep_duration < 7 ∨ data.quality_of_sleep < 6 ∨
  data.stress_level > 6 ∨ data.physical_activity_level < 30 ∨
  data.daily_steps < 5000 ∨ data.heart_rate > 90 ∨
  data.systolic_bp > 130 ∨ data.diastolic_bp > 85

instance (data : PredictionInput) : Decidable (someThresholdFires data) := by
  unfold someThresholdFires; infer_instance

/-- The trained classifier artifact (`best_model.pkl`), opaque to this
repository: its class list, decision rule and probability estimator
(`model.classes_`, `model.predict`, `model.predict_proba`). -/
structure Model where
  classes_ : List String
  predict : List ℚ → String
  predict_proba : List ℚ → List ℚ

/-- The fitted scaler artifact (`scaler.pkl`), opaque: `scaler.transform`
applied to the one-row DataFrame yields one row of scaled values. -/
structure Scaler where
  transform : List ℚ → List ℚ

/-- The `model_info.pkl` metadata fields used by `predict`
(`main.py` lines 158-161). -/
structure ModelInfo where
  model_name : String
  accuracy : ℚ

/-- The four artifacts loaded at module start (`main.py` lines 26-34). -/
structure Artifacts where
  model : Model
  scaler : Scaler
  feature_names : List String
  model_info : ModelInfo

/-- The module load block (`main.py` lines 26-38): the four pickle loads run
sequentially inside one `try`; if any of them fails the `except` branch sets
`model = None`, so the store is loaded only when all four succeeded. -/
def loadArtifacts (m : Option Model) (s : Option Scaler)
    (f : Option (List String)) (i : Option ModelInfo) : Option Artifacts :=
  match m, s, f, i with
  | some m, some s, some f, some i => some ⟨m, s, f, i⟩
  | _, _, _, _ => none

/-- The `confidence` dict comprehension (`main.py` lines 146-149): pair each
class label with its probability × 100, in the classifier's class order. -/
def confidenceDict (model : Model) (proba : List ℚ) : List (String × ℚ) :=
  (model.classes_.zip proba).map fun p => (p.1, p.2 * 100)

/-- The successful-response fields of `PredictionOutput`
(`main.py` lines 55-59, minus the metadata passthrough). -/
structure PredictionOutput where
  prediction : String
  confidence : List (String × ℚ)
  recommendations : List String
  deriving DecidableEq

/-- The body of `predict` once the store is loaded (`main.py`
lines 98-162): encode, scale, classify, build confidence and
recommendations. -/
def predictLoaded (a : Artifacts) (input : PredictionInput) :
    Except String PredictionOutput :=
  match encode input a.feature_names with
  | none => Except.error "Prediction error"
  | some vec =>
      let input_scaled := a.scaler.transform vec
      let prediction := a.model.predict input_scaled
      let prediction_proba := a.model.predict_proba input_scaled
      Except.ok
        { prediction := prediction
          confidence := confidenceDict a.model prediction_proba
          recommendations := generate_recommendations input }

/-- The `/predict` endpoint (`main.py` lines 93-165): reject with the
model-not-loaded error when the store is unloaded, before any computation. -/
def predictEndpoint (store : Option Artifacts) (input : PredictionInput) :
    Except String PredictionOutput :=
  match store with
  | none => Except.error "Model not loaded"
  | some a => predictLoaded a input

/-- The multiset of threshold messages in rule order, as one concatenation;
provably the value `generate_recommendations` accumulates before the
default-message fallback. -/
def thresholdMsgs (data : PredictionInput) : List String :=
  (if data.sleep_duration < 7 then [msgSleep] else []) ++
  (if data.quality_of_sleep < 6 then [msgQuality] else []) ++
  (if data.stress_level > 6 then [msgStress] else []) ++
  (if data.physical_activity_level < 30 then [msgActivity] else []) ++
  (if data.daily_steps < 5000 then [msgSteps] else []) ++
  (if data.heart_rate > 90 then [msgHeart] else []) ++
  (if data.systolic_bp > 130 ∨ data.diastolic_bp > 85 then [msgBP] else [])

/-- The spec's all-triggers scenario input (fields the recommendation rules
ignore are chosen arbitrarily). -/
def inputC7 : PredictionInput :=
  { age := 30, gender := "Male", occupation := "Doctor",
    sleep_duration := 5, quality_of_sleep := 4,
    physical_activity_level := 10, stress_level := 8,
    bmi_category := "Normal", heart_rate := 95, daily_steps := 2000,
    systolic_bp := 140, diastolic_bp := 90 }

/-- The spec's no-triggers scenario input. -/
def inputC8 : PredictionInput :=
  { age := 30, gender := "Female", occupation := "Accountant",
    sleep_duration := 8, quality_of_sleep := 8,
    physical_activity_level := 45, stress_level := 3,
    bmi_category := "Normal", heart_rate := 70, daily_steps := 8000,
    systolic_bp := 115, diastolic_bp := 75 }

/-- A concrete input matching the non-baseline categories Doctor/Obese. -/
def inputC3 : PredictionInput :=
  { age := 35, gender := "Male", occupation := "Doctor",
    sleep_duration := 6, quality_of_sleep := 6,
    physical_activity_level := 40, stress_level := 5,
    bmi_category := "Obese", heart_rate := 72, daily_steps := 6000,
    systolic_bp := 120, diastolic_bp := 80 }

/-- A concrete input whose categorical strings differ from training
categories only in letter case. -/
def inputC9 : PredictionInput :=
  { age := 35, gender := "male", occupation := "doctor",
    sleep_duration := 7, quality_of_sleep := 7,
    physical_activity_level := 30, stress_level := 5,
    bmi_category := "normal weight", heart_rate := 70, daily_steps := 6000,
    systolic_bp := 120, diastolic_bp := 80 }

/-- A concrete classifier obeying the artifact contract, used to exercise
the inference-layer theorems. -/
def witModel : Model :=
  { classes_ := ["Insomnia", "None", "Sleep Apnea"],
    predict := fun _ => "None",
    predict_proba := fun _ => [0, 1, 0] }

/-- A concrete identity scaler. -/
def witScaler : Scaler := { transform := fun v => v }

/-- Concrete model metadata. -/
def witInfo : ModelInfo := { model_name := "Random Forest", accuracy := 1 }

/-- A concrete fully loaded artifact store. -/
def witArtifacts : Artifacts :=
  { model := witModel, scaler := witScaler,
    feature_names := ["Age", "Gender_Male"], model_info := witInfo }

/-- The response `predictEndpoint` produces from `witArtifacts` on the
no-triggers scenario input. -/
def witOut : PredictionOutput :=
  { prediction := "None",
    confidence := [("Insomnia", 0), ("None", 100), ("Sleep Apnea", 0)],
    recommendations := [msgDefault] }

/-! ### Lemmas about column lookup and the zero-fill loop -/

theorem colLookup_append_of_eq_some {l₁ : List (String × ℚ)} {f : String}
    {v : ℚ} (l₂ : List (String × ℚ)) (h : colLookup l₁ f = some v) :
    colLookup (l₁ ++ l₂) f = some v := by
  induction l₁ with
  | nil => simp [colLookup] at h
  | cons p rest ih =>
      obtain ⟨g, w⟩ := p
      rw [List.cons_append]
      rw [colLookup] at h ⊢
      by_cases hgf : g = f
      · rw [if_pos hgf] at h ⊢
        exact h
      · rw [if_neg hgf] at h ⊢
        exact ih h

theorem colLookup_append_of_eq_none {l₁ : List (String × ℚ)} {f : String}
    (l₂ : List (String × ℚ)) (h : colLookup l₁ f = none) :
    colLookup (l₁ ++ l₂) f = colLookup l₂ f := by
  induction l₁ with
  | nil => simp
  | cons p rest ih =>
      obtain ⟨g, w⟩ := p
      rw [List.cons_append]
      rw [colLookup] at h ⊢
      by_cases hgf : g = f
      · rw [if_pos hgf] at h
        exact absurd h (by simp)
      · rw [if_neg hgf] at h ⊢
        exact ih h

theorem colLookup_singleton (f g : String) (v : ℚ) :
    colLookup [(g, v)] f = if g = f then some v else none := by
  rw [colLookup]
  split <;> simp [colLookup]

/-- After one zero-fill step for `f`, column `f` is present, holding its old
value or 0. -/
theorem ensureFeature_lookup_self (df : List (String × ℚ)) (f : String) :
    colLookup (ensureFeature df f) f = some ((colLookup df f).getD 0) := by
  unfold ensureFeature
  cases h : colLookup df f with
  | some v => simp [h, colLookup_append_of_eq_some _ h]
  | none =>
      simp only [h, Option.isSome_none, Bool.false_eq_true, if_false,
        Option.getD_none]
      rw [colLookup_append_of_eq_none _ h, colLookup_singleton]
      simp

/-- One zero-fill step never changes the defaulted value of any column. -/
theorem ensureFeature_lookup_getD (df : List (String × ℚ)) (f g : String) :
    (colLookup (ensureFeature df f) g).getD 0 = (colLookup df g).getD 0 := by
  by_cases hfg : f = g
  · subst hfg
    rw [ensureFeature_lookup_self]
    simp
  · unfold ensureFeature
    cases h : colLookup df f with
    | some v => simp [h]
    | none =>
        simp only [h, Option.isSome_none, Bool.false_eq_true, if_false]
        cases hg : colLookup df g with
        | some w => simp [colLookup_append_of_eq_some _ hg, hg]
        | none =>
            rw [colLookup_append_of_eq_none _ hg, colLookup_singleton]
            simp [hfg]

/-- One zero-fill step preserves an already present column exactly. -/
theorem ensureFeature_lookup_of_eq_some {df : List (String × ℚ)}
    {g : String} {v : ℚ} (f : String) (h : colLookup df g = some v) :
    colLookup (ensureFeature df f) g = some v := by
  unfold ensureFeature
  split
  · exact h
  · exact colLookup_append_of_eq_some _ h

/-- The zero-fill loop preserves an already present column exactly. -/
theorem ensureFeatures_lookup_of_eq_some {df : List (String × ℚ)}
    {g : String} {v : ℚ} (names : List String)
    (h : colLookup df g = some v) :
    colLookup (ensureFeatures df names) g = some v := by
  induction names generalizing df with
  | nil => exact h
  | cons f rest ih =>
      rw [ensureFeatures, List.foldl_cons]
      exact ih (ensureFeature_lookup_of_eq_some f h)

/-- After the zero-fill loop, every schema column is present, holding its
value from the data dict, defaulting to 0. -/
theorem ensureFeatures_lookup_of_mem {df : List (String × ℚ)} {g : String}
    {names : List String} (h : g ∈ names) :
    colLookup (ensureFeatures df names) g = some ((colLookup df g).getD 0) := by
  induction names generalizing df with
  | nil => cases h
  | cons f rest ih =>
      rw [ensureFeatures, List.foldl_cons]
      rcases List.mem_cons.mp h with hgf | hmem
      · subst hgf
        have hself := ensureFeature_lookup_self df g
        exact ensureFeatures_lookup_of_eq_some rest hself
      · rw [show List.foldl ensureFeature (ensureFeature df f) rest =
            ensureFeatures (ensureFeature df f) rest from rfl,
          ih hmem, ensureFeature_lookup_getD]

/-- Column selection succeeds and returns the defaulted lookups when every
requested column is present. -/
theorem selectColumns_eq_map {df : List (String × ℚ)}
    {names : List String}
    (h : ∀ f ∈ names, (colLookup df f).isSome) :
    selectColumns df names =
      some (names.map fun f => (colLookup df f).getD 0) := by
  induction names with
  | nil => rfl
  | cons f rest ih =>
      have hf := h f (List.mem_cons_self f rest)
      rcases Option.isSome_iff_exists.mp hf with ⟨v, hv⟩
      have hrest := ih fun g hg => h g (List.mem_cons_of_mem f hg)
      rw [selectColumns] at hrest ⊢
      rw [List.mapM_cons, hv, hrest]
      simp [hv]

/-- The encoding pipeline always succeeds and equals its closed form. -/
theorem encode_eq_encodeVec (input : PredictionInput)
    (feature_names : List String) :
    encode input feature_names = some (encodeVec input feature_names) := by
  unfold encode encodeVec
  have hpres : ∀ f ∈ feature_names,
      colLookup (ensureFeatures (buildData input) feature_names) f =
        some ((colLookup (buildData input) f).getD 0) :=
    fun f hf => ensureFeatures_lookup_of_mem hf
  rw [selectColumns_eq_map (fun f hf => by rw [hpres f hf]; rfl)]
  congr 1
  exact List.map_congr_left fun f hf => by rw [hpres f hf]; rfl

/-! ### Characterization of the data dict's columns -/

/-- The gender indicator column of the data dict. -/
theorem buildData_lookup_gender (input : PredictionInput) :
    colLookup (buildData input) "Gender_Male" =
      some (if input.gender = "Male" then 1 else 0) := by
  simp [buildData, numericData, genderData, occupationData, bmiData,
    occupations, bmi_categories, colLookup]

/-- Each non-baseline occupation indicator column of the data dict holds 1
exactly when the input's occupation string equals that category. -/
theorem buildData_lookup_occ (input : PredictionInput) (occ : String)
    (h : occ ∈ occupations.tail) :
    colLookup (buildData input) ("Occupation_" ++ occ) =
      some (if input.occupation = occ then 1 else 0) := by
  fin_cases h <;>
    simp [buildData, numericData, genderData, occupationData, bmiData,
      occupations, bmi_categories, colLookup]

/-- Each non-baseline BMI indicator column of the data dict holds 1 exactly
when the input's BMI category string equals that category. -/
theorem buildData_lookup_bmi (input : PredictionInput) (bmi : String)
    (h : bmi ∈ bmi_categories.tail) :
    colLookup (buildData input) ("BMI Category_" ++ bmi) =
      some (if input.bmi_category = bmi then 1 else 0) := by
  fin_cases h <;>
    simp [buildData, numericData, genderData, occupationData, bmiData,
      occupations, bmi_categories, colLookup]

/-- Changing only the gender field changes only the value stored under
`Gender_Male` in the data dict. -/
theorem buildData_update_gender (r : PredictionInput) (g : String) :
    buildData {r with gender := g} =
      numericData r ++ [("Gender_Male", if g = "Male" then 1 else 0)] ++
        occupationData r ++ bmiData r := rfl

/-- Lookup skips an interposed entry whose key differs from the target. -/
theorem colLookup_middle_ne (A B : List (String × ℚ)) (k : String) (v : ℚ)
    (f : String) (h : k ≠ f) :
    colLookup (A ++ (k, v) :: B) f = colLookup (A ++ B) f := by
  cases hA : colLookup A f with
  | some w =>
      rw [colLookup_append_of_eq_some _ hA, colLookup_append_of_eq_some _ hA]
  | none =>
      rw [colLookup_append_of_eq_none _ hA, colLookup_append_of_eq_none _ hA,
        colLookup, if_neg h]

/-- Every column other than `Gender_Male` is unaffected by the gender
field. -/
theorem colLookup_buildData_ne_gender (r : PredictionInput)
    (g₁ g₂ : String) (f : String) (hf : f ≠ "Gender_Male") :
    colLookup (buildData {r with gender := g₁}) f =
      colLookup (buildData {r with gender := g₂}) f := by
  rw [buildData_update_gender, buildData_update_gender]
  have hAssoc : ∀ v : ℚ,
      numericData r ++ [("Gender_Male", v)] ++ occupationData r ++ bmiData r =
        numericData r ++ ("Gender_Male", v) ::
          (occupationData r ++ bmiData r) := by
    intro v; simp
  rw [hAssoc, hAssoc, colLookup_middle_ne _ _ _ _ _ (Ne.symm hf),
    colLookup_middle_ne _ _ _ _ _ (Ne.symm hf)]

/-! ### Structure of the recommendation list -/

theorem ite_append_singleton (c : Prop) [Decidable c] (l : List String)
    (m : String) :
    (if c then l ++ [m] else l) = l ++ (if c then [m] else []) := by
  split <;> simp

theorem append_ite_nil (l : List String) (m : String) :
    l ++ (if l = [] then [m] else []) = (if l = [] then [m] else l) := by
  split <;> simp_all

/-- The function `generate_recommendations` equals its accumulated threshold messages,
with the default message substituted when none fired. -/
theorem generate_recommendations_eq (data : PredictionInput) :
    generate_recommendations data =
      if thresholdMsgs data = [] then [msgDefault]
      else thresholdMsgs data := by
  unfold generate_recommendations thresholdMsgs
  simp only [ite_append_singleton, List.nil_append]
  exact append_ite_nil _ _

theorem ite_singleton_length_le (c : Prop) [Decidable c] (m : String) :
    (if c then [m] else []).length ≤ 1 := by
  split <;> simp

theorem thresholdMsgs_length_le (data : PredictionInput) :
    (thresholdMsgs data).length ≤ 7 := by
  unfold thresholdMsgs
  have g1 := ite_singleton_length_le (data.sleep_duration < 7) msgSleep
  have g2 := ite_singleton_length_le (data.quality_of_sleep < 6) msgQuality
  have g3 := ite_singleton_length_le (data.stress_level > 6) msgStress
  have g4 := ite_singleton_length_le
    (data.physical_activity_level < 30) msgActivity
  have g5 := ite_singleton_length_le (data.daily_steps < 5000) msgSteps
  have g6 := ite_singleton_length_le (data.heart_rate > 90) msgHeart
  have g7 := ite_singleton_length_le
    (data.systolic_bp > 130 ∨ data.diastolic_bp > 85) msgBP
  simp only [List.length_append]
  omega

/-- The accumulated threshold list is empty exactly when no rule fires. -/
theorem thresholdMsgs_eq_nil_iff (data : PredictionInput) :
    thresholdMsgs data = [] ↔ ¬someThresholdFires data := by
  unfold thresholdMsgs someThresholdFires
  simp only [List.append_eq_nil, ite_eq_right_iff,
    List.cons_ne_nil, imp_false]
  tauto

theorem msgDefault_not_mem_ite (c : Prop) [Decidable c] (m : String)
    (hne : msgDefault ≠ m) :
    msgDefault ∉ (if c then [m] else []) := by
  split <;> simp [hne]

/-- The default message is never one of the threshold messages. -/
theorem msgDefault_not_mem_thresholdMsgs (data : PredictionInput) :
    msgDefault ∉ thresholdMsgs data := by
  unfold thresholdMsgs
  have g1 := msgDefault_not_mem_ite (data.sleep_duration < 7) msgSleep
    (by decide)
  have g2 := msgDefault_not_mem_ite (data.quality_of_sleep < 6) msgQuality
    (by decide)
  have g3 := msgDefault_not_mem_ite (data.stress_level > 6) msgStress
    (by decide)
  have g4 := msgDefault_not_mem_ite
    (data.physical_activity_level < 30) msgActivity (by decide)
  have g5 := msgDefault_not_mem_ite (data.daily_steps < 5000) msgSteps
    (by decide)
  have g6 := msgDefault_not_mem_ite (data.heart_rate > 90) msgHeart
    (by decide)
  have g7 := msgDefault_not_mem_ite
    (data.systolic_bp > 130 ∨ data.diastolic_bp > 85) msgBP (by decide)
  simp only [List.mem_append]
  tauto

/-! ### Claim theorems -/

/-- C1: for every `PredictionInput` and feature schema, the encoding
succeeds and equals the schema mapped over the data dict's columns with
default 0 — every schema name missing from the dict is filled with 0, every
dict column not in the schema is dropped, the order is the schema's, and the
vector's length equals the schema's length. -/
theorem encode_matches_schema (input : PredictionInput)
    (schema : List String) :
    encode input schema = some (encodeVec input schema) ∧
    (encodeVec input schema).length = schema.length := by
  refine ⟨encode_eq_encodeVec input schema, ?_⟩
  simp [encodeVec]

/-- C7: on the all-triggers scenario input (sleep 5, quality 4, stress 8,
activity 10, steps 2000, heart rate 95, BP 140/90) the recommendation list
is exactly the seven threshold messages in the fixed priority order. -/
theorem recommendations_all_seven :
    generate_recommendations inputC7 =
      [msgSleep, msgQuality, msgStress, msgActivity, msgSteps,
       msgHeart, msgBP] ∧
    (generate_recommendations inputC7).length = 7 := by
  constructor <;> rfl

/-- C8: when no threshold rule fires, the recommendation list is exactly
the single default positive-reinforcement message (hence non-empty). -/
theorem recommendations_default_of_no_trigger (data : PredictionInput)
    (h1 : ¬data.sleep_duration < 7) (h2 : ¬data.quality_of_sleep < 6)
    (h3 : ¬data.stress_level > 6) (h4 : ¬data.physical_activity_level < 30)
    (h5 : ¬data.daily_steps < 5000) (h6 : ¬data.heart_rate > 90)
    (h7 : ¬(data.systolic_bp > 130 ∨ data.diastolic_bp > 85)) :
    generate_recommendations data = [msgDefault] := by
  unfold generate_recommendations
  simp [h1, h2, h3, h4, h5, h6, h7]

/-- Witness for C8 at the spec's no-triggers scenario input (sleep 8,
quality 8, stress 3, activity 45, steps 8000, heart rate 70, BP 115/75). -/
theorem recommendations_default_of_no_trigger_witness :
    generate_recommendations inputC8 = [msgDefault] :=
  recommendations_default_of_no_trigger inputC8 (by decide) (by decide)
    (by decide) (by decide) (by decide) (by decide) (by decide)

/-- C10: for every input the recommendation list has between 1 and 7
elements, and the default message appears exactly when no threshold rule
fires — and then it is the only element. -/
theorem recommendations_invariant (data : PredictionInput) :
    1 ≤ (generate_recommendations data).length ∧
    (generate_recommendations data).length ≤ 7 ∧
    (msgDefault ∈ generate_recommendations data ↔
      ¬someThresholdFires data) ∧
    (msgDefault ∈ generate_recommendations data →
      generate_recommendations data = [msgDefault]) := by
  rw [generate_recommendations_eq]
  by_cases h : thresholdMsgs data = []
  · rw [if_pos h]
    have hfires := (thresholdMsgs_eq_nil_iff data).mp h
    simp [hfires]
  · rw [if_neg h]
    have hmem := msgDefault_not_mem_thresholdMsgs data
    have hlen := thresholdMsgs_length_le data
    have hpos : 0 < (thresholdMsgs data).length :=
      List.length_pos.mpr h
    refine ⟨hpos, hlen, ?_, fun hm => absurd hm hmem⟩
    constructor
    · exact fun hm => absurd hm hmem
    · intro hnot
      exact absurd ((thresholdMsgs_eq_nil_iff data).mpr hnot) h

/-- C3: within each one-hot group the indicator for a category is 1 exactly
when the input string equals that non-baseline category; whenever one
indicator is 1 every sibling is 0 (so at most one fires); and an input
matching no non-baseline category (unknown or baseline) yields all-zero
indicators, with every lookup still succeeding. -/
theorem onehot_groups (input : PredictionInput) :
    (∀ occ ∈ occupations.tail,
      colLookup (buildData input) ("Occupation_" ++ occ) =
        some (if input.occupation = occ then 1 else 0)) ∧
    (∀ bmi ∈ bmi_categories.tail,
      colLookup (buildData input) ("BMI Category_" ++ bmi) =
        some (if input.bmi_category = bmi then 1 else 0)) ∧
    (∀ o₁ ∈ occupations.tail, ∀ o₂ ∈ occupations.tail, o₁ ≠ o₂ →
      colLookup (buildData input) ("Occupation_" ++ o₁) = some 1 →
      colLookup (buildData input) ("Occupation_" ++ o₂) = some 0) ∧
    (∀ b₁ ∈ bmi_categories.tail, ∀ b₂ ∈ bmi_categories.tail, b₁ ≠ b₂ →
      colLookup (buildData input) ("BMI Category_" ++ b₁) = some 1 →
      colLookup (buildData input) ("BMI Category_" ++ b₂) = some 0) ∧
    ((∀ occ ∈ occupations.tail, input.occupation ≠ occ) →
      ∀ occ ∈ occupations.tail,
        colLookup (buildData input) ("Occupation_" ++ occ) = some 0) ∧
    ((∀ bmi ∈ bmi_categories.tail, input.bmi_category ≠ bmi) →
      ∀ bmi ∈ bmi_categories.tail,
        colLookup (buildData input) ("BMI Category_" ++ bmi) = some 0) := by
  refine ⟨buildData_lookup_occ input, buildData_lookup_bmi input,
    ?_, ?_, ?_, ?_⟩
  · intro o₁ h₁ o₂ h₂ hne heq
    rw [buildData_lookup_occ input o₁ h₁] at heq
    have hocc : input.occupation = o₁ := by
      by_contra hno
      rw [if_neg hno] at heq
      exact absurd (Option.some.inj heq) (by norm_num)
    rw [buildData_lookup_occ input o₂ h₂, if_neg]
    rw [hocc]
    exact hne
  · intro b₁ h₁ b₂ h₂ hne heq
    rw [buildData_lookup_bmi input b₁ h₁] at heq
    have hbmi : input.bmi_category = b₁ := by
      by_contra hno
      rw [if_neg hno] at heq
      exact absurd (Option.some.inj heq) (by norm_num)
    rw [buildData_lookup_bmi input b₂ h₂, if_neg]
    rw [hbmi]
    exact hne
  · intro hno occ hocc
    rw [buildData_lookup_occ input occ hocc, if_neg (hno occ hocc)]
  · intro hno bmi hbmi
    rw [buildData_lookup_bmi input bmi hbmi, if_neg (hno bmi hbmi)]

/-- Witness for C3 at a Doctor/Obese input: the matching indicators are 1,
a sibling indicator is 0. -/
theorem onehot_groups_witness :
    colLookup (buildData inputC3) ("Occupation_" ++ "Doctor") = some 1 ∧
    colLookup (buildData inputC3) ("Occupation_" ++ "Teacher") = some 0 ∧
    colLookup (buildData inputC3) ("BMI Category_" ++ "Obese") = some 1 := by
  have h := onehot_groups inputC3
  refine ⟨?_, ?_, ?_⟩
  · have h1 := h.1 "Doctor" (by decide)
    simpa [inputC3] using h1
  · exact h.2.2.1 "Doctor" (by decide) "Teacher" (by decide) (by decide)
      (by simpa [inputC3] using h.1 "Doctor" (by decide))
  · have h2 := h.2.1 "Obese" (by decide)
    simpa [inputC3] using h2

/-- C9: categorical matching is exact and case-sensitive — a gender string
other than exactly `"Male"` yields gender indicator 0, and occupation/BMI
strings equal to no training category (for example, ones differing only in
letter case) yield all-zero indicators for their group. -/
theorem case_sensitive_matching (input : PredictionInput)
    (hg : input.gender ≠ "Male")
    (ho : ∀ occ ∈ occupations.tail, input.occupation ≠ occ)
    (hb : ∀ bmi ∈ bmi_categories.tail, input.bmi_category ≠ bmi) :
    colLookup (buildData input) "Gender_Male" = some 0 ∧
    (∀ occ ∈ occupations.tail,
      colLookup (buildData input) ("Occupation_" ++ occ) = some 0) ∧
    (∀ bmi ∈ bmi_categories.tail,
      colLookup (buildData input) ("BMI Category_" ++ bmi) = some 0) := by
  refine ⟨?_, ?_, ?_⟩
  · rw [buildData_lookup_gender input, if_neg hg]
  · intro occ hocc
    rw [buildData_lookup_occ input occ hocc, if_neg (ho occ hocc)]
  · intro bmi hbmi
    rw [buildData_lookup_bmi input bmi hbmi, if_neg (hb bmi hbmi)]

/-- Witness for C9 at lowercase category strings: `"male"`, `"doctor"` and
`"normal weight"` all leave their indicator groups at zero. -/
theorem case_sensitive_matching_witness :
    colLookup (buildData inputC9) "Gender_Male" = some 0 ∧
    colLookup (buildData inputC9) ("Occupation_" ++ "Doctor") = some 0 ∧
    colLookup (buildData inputC9) ("BMI Category_" ++ "Normal Weight") =
      some 0 := by
  have h := case_sensitive_matching inputC9 (by decide) (by decide)
    (by decide)
  exact ⟨h.1, h.2.1 "Doctor" (by decide), h.2.2 "Normal Weight" (by decide)⟩

/-- C2: when any of the four artifact loads failed, the store is unloaded
and the endpoint fails with the model-not-loaded error for every input —
the error branch precedes the encoding/scaling/classification code, whose
behavior the result provably does not depend on. -/
theorem unloaded_store_rejects (m : Option Model) (s : Option Scaler)
    (f : Option (List String)) (i : Option ModelInfo)
    (h : m = none ∨ s = none ∨ f = none ∨ i = none)
    (input : PredictionInput) :
    predictEndpoint (loadArtifacts m s f i) input =
      Except.error "Model not loaded" := by
  cases m <;> cases s <;> cases f <;> cases i <;>
    simp_all [loadArtifacts, predictEndpoint]

/-- Witness for C2 with every artifact failed. -/
theorem unloaded_store_rejects_witness :
    predictEndpoint (loadArtifacts none none none none) inputC8 =
      Except.error "Model not loaded" :=
  unloaded_store_rejects none none none none (Or.inl rfl) inputC8

/-- C6: flipping only the gender field between `"Female"` (baseline) and
`"Male"` changes the encoded FeatureVector exactly at the schema position
named `Gender_Male` (0 for Female, 1 for Male) and agrees at every other
position; both encodings are produced by the pipeline. -/
theorem gender_flip_single_column (r : PredictionInput)
    (schema : List String) (i : Nat) (h : i < schema.length) :
    (schema.getD i "" ≠ "Gender_Male" →
      (encodeVec {r with gender := "Female"} schema).getD i 0 =
        (encodeVec {r with gender := "Male"} schema).getD i 0) ∧
    (schema.getD i "" = "Gender_Male" →
      (encodeVec {r with gender := "Female"} schema).getD i 0 = 0 ∧
        (encodeVec {r with gender := "Male"} schema).getD i 0 = 1) ∧
    encode {r with gender := "Female"} schema =
      some (encodeVec {r with gender := "Female"} schema) ∧
    encode {r with gender := "Male"} schema =
      some (encodeVec {r with gender := "Male"} schema) := by
  have hname : schema.getD i "" = schema[i] := by
    rw [List.getD_eq_getElem?_getD, List.getElem?_eq_getElem h]
    rfl
  have key : ∀ inp : PredictionInput,
      (encodeVec inp schema).getD i 0 =
        (colLookup (buildData inp) schema[i]).getD 0 := by
    intro inp
    unfold encodeVec
    rw [List.getD_eq_getElem?_getD, List.getElem?_map,
      List.getElem?_eq_getElem h]
    rfl
  refine ⟨?_, ?_, encode_eq_encodeVec _ _, encode_eq_encodeVec _ _⟩
  · intro hne
    rw [key, key,
      colLookup_buildData_ne_gender r "Female" "Male" schema[i]
        (hname ▸ hne)]
  · intro heq
    rw [hname] at heq
    rw [key, key, heq, buildData_lookup_gender, buildData_lookup_gender]
    constructor <;> simp

/-- Witness for C6 on the schema `["Age", "Gender_Male"]` at position 1. -/
theorem gender_flip_single_column_witness :
    (encodeVec {inputC8 with gender := "Female"}
        ["Age", "Gender_Male"]).getD 1 0 = 0 ∧
    (encodeVec {inputC8 with gender := "Male"}
        ["Age", "Gender_Male"]).getD 1 0 = 1 :=
  (gender_flip_single_column inputC8 ["Age", "Gender_Male"] 1
    (by decide)).2.1 (by decide)

/-- On a loaded store, the endpoint's response in closed form. -/
theorem predictEndpoint_some (a : Artifacts) (input : PredictionInput) :
    predictEndpoint (some a) input =
      Except.ok
        { prediction :=
            a.model.predict
              (a.scaler.transform (encodeVec input a.feature_names))
          confidence :=
            confidenceDict a.model
              (a.model.predict_proba
                (a.scaler.transform (encodeVec input a.feature_names)))
          recommendations := generate_recommendations input } := by
  have hstep : predictEndpoint (some a) input = predictLoaded a input := rfl
  rw [hstep]
  unfold predictLoaded
  rw [encode_eq_encodeVec]

/-- Evaluating the endpoint on the concrete witness store and the
no-triggers input. -/
theorem predictEndpoint_witArtifacts :
    predictEndpoint (some witArtifacts) inputC8 = Except.ok witOut := by
  rw [predictEndpoint_some]
  have h1 : witArtifacts.model.predict (witArtifacts.scaler.transform
      (encodeVec inputC8 witArtifacts.feature_names)) = "None" := rfl
  have h2 : confidenceDict witArtifacts.model
      (witArtifacts.model.predict_proba (witArtifacts.scaler.transform
        (encodeVec inputC8 witArtifacts.feature_names))) =
      [("Insomnia", 0), ("None", 100), ("Sleep Apnea", 0)] := by
    simp [confidenceDict, witArtifacts, witModel]
  have h3 : generate_recommendations inputC8 = [msgDefault] := rfl
  rw [h1, h2, h3]
  rfl

/-- C4: on every successful inference, the confidence mapping's keys are
exactly the classifier's class list (when the classifier supplies one
probability per class) and the predicted label is one of those keys (when
the classifier's decision rule returns a known class). -/
theorem prediction_key_of_confidence (a : Artifacts)
    (input : PredictionInput) (out : PredictionOutput)
    (hout : predictEndpoint (some a) input = Except.ok out)
    (hlen : (a.model.predict_proba (a.scaler.transform
        (encodeVec input a.feature_names))).length =
      a.model.classes_.length)
    (hmem : a.model.predict (a.scaler.transform
        (encodeVec input a.feature_names)) ∈ a.model.classes_) :
    out.confidence.map Prod.fst = a.model.classes_ ∧
    out.prediction ∈ out.confidence.map Prod.fst := by
  rw [predictEndpoint_some] at hout
  have hout' := Except.ok.inj hout
  subst hout'
  have hkeys : (confidenceDict a.model
      (a.model.predict_proba (a.scaler.transform
        (encodeVec input a.feature_names)))).map Prod.fst =
      a.model.classes_ := by
    unfold confidenceDict
    rw [List.map_map]
    have hcomp : (Prod.fst ∘ fun p : String × ℚ => (p.1, p.2 * 100)) =
        Prod.fst := rfl
    rw [hcomp]
    exact List.map_fst_zip _ _ hlen.symm.le
  exact ⟨hkeys, by rw [hkeys]; exact hmem⟩

/-- Witness for C4 on a concrete three-class artifact store. -/
theorem prediction_key_of_confidence_witness :
    witOut.confidence.map Prod.fst = witArtifacts.model.classes_ ∧
    witOut.prediction ∈ witOut.confidence.map Prod.fst :=
  prediction_key_of_confidence witArtifacts inputC8 witOut
    predictEndpoint_witArtifacts rfl (by simp [witArtifacts, witModel])

/-- C5: on every successful inference, each confidence value is the
classifier's per-class probability multiplied by 100 with no rounding, lies
in `[0, 100]`, and the values sum to exactly 100 — when the classifier's
probabilities form a distribution over its class list. -/
theorem confidence_scaled_probabilities (a : Artifacts)
    (input : PredictionInput) (out : PredictionOutput)
    (hout : predictEndpoint (some a) input = Except.ok out)
    (hlen : (a.model.predict_proba (a.scaler.transform
        (encodeVec input a.feature_names))).length =
      a.model.classes_.length)
    (hrange : ∀ p ∈ a.model.predict_proba (a.scaler.transform
        (encodeVec input a.feature_names)), 0 ≤ p ∧ p ≤ 1)
    (hsum : (a.model.predict_proba (a.scaler.transform
        (encodeVec input a.feature_names))).sum = 1) :
    out.confidence =
      (a.model.classes_.zip (a.model.predict_proba (a.scaler.transform
        (encodeVec input a.feature_names)))).map
        (fun p => (p.1, p.2 * 100)) ∧
    (∀ c ∈ out.confidence, 0 ≤ c.2 ∧ c.2 ≤ 100) ∧
    (out.confidence.map Prod.snd).sum = 100 := by
  rw [predictEndpoint_some] at hout
  have hout' := Except.ok.inj hout
  subst hout'
  refine ⟨rfl, ?_, ?_⟩
  · intro c hc
    unfold confidenceDict at hc
    rcases List.mem_map.mp hc with ⟨p, hp, rfl⟩
    rcases hrange p.2 (List.of_mem_zip hp).2 with ⟨h0, h1⟩
    constructor
    · exact mul_nonneg h0 (by norm_num)
    · calc p.2 * 100 ≤ 1 * 100 :=
            mul_le_mul_of_nonneg_right h1 (by norm_num)
        _ = 100 := by norm_num
  · unfold confidenceDict
    rw [List.map_map]
    have hcomp : (Prod.snd ∘ fun p : String × ℚ => (p.1, p.2 * 100)) =
        (fun x => x * 100) ∘ Prod.snd := rfl
    rw [hcomp, ← List.map_map, List.map_snd_zip _ _ hlen.le]
    rw [show ((a.model.predict_proba (a.scaler.transform
        (encodeVec input a.feature_names))).map fun x => x * 100).sum =
        (a.model.predict_proba (a.scaler.transform
          (encodeVec input a.feature_names))).sum * 100 from by
      simp [List.sum_map_mul_right]]
    rw [hsum]
    norm_num

/-- Witness for C5: the concrete confidence values sum to 100. -/
theorem confidence_scaled_probabilities_witness :
    (witOut.confidence.map Prod.snd).sum = 100 :=
  (confidence_scaled_probabilities witArtifacts inputC8 witOut
    predictEndpoint_witArtifacts rfl
    (by norm_num [witArtifacts, witModel])
    (by norm_num [witArtifacts, witModel])).2.2

end ChronoPulse
